import Mathlib

/-!
Shallow embedding of the expense-tracking service in src/main.py.

Conventions of the embedding:
  - SQLite REAL amounts are modelled as rationals.
  - The expenses table is a list of rows plus the AUTOINCREMENT counter.
  - datetime now is an abstract tick passed to each operation.
  - Storage faults (failure to open the database, I/O errors) are modelled
    by a boolean flag given to each operation; the CHECK constraints of the
    schema (amount >= 0, length(currency) = 3) are enforced by the modelled
    storage engine on every written row.
  - Python exceptions are modelled with Except; each tool wrapper catches
    them exactly where the source has try/except clauses.  The Outcome type
    distinguishes a returned dictionary from an uncaught exception.
-/

namespace ExpenseTracker

/-- A stored row of the expenses table (src/main.py, CREATE TABLE expenses). -/
structure Expense where
  id : Nat
  date : String
  created_at : Nat
  updated_at : Nat
  amount : ℚ
  currency : String
  category : String
  subcategory : Option String
  payment_method : Option String
  merchant : Option String
  notes : Option String
deriving DecidableEq

/-- The database: rows of the expenses table plus the AUTOINCREMENT counter. -/
structure DB where
  rows : List Expense
  next_id : Nat
deriving DecidableEq

/-- Python exceptions raised inside the tool bodies. -/
inductive PyExc where
  | valueError (msg : String)
  | operationalError (msg : String)
  | attributeError (msg : String)
deriving DecidableEq

/-- Message carried by an exception (str(e) in the source). -/
def PyExc.msg : PyExc → String
  | .valueError m => m
  | .operationalError m => m
  | .attributeError m => m

/-- Outcome of a call as seen by the dispatcher: a returned dictionary of
type ρ, or an exception that escaped the tool uncaught. -/
inductive Outcome (ρ : Type) where
  | returned (r : ρ)
  | raised (e : PyExc)
deriving DecidableEq

/-- Result dictionary of add_expense. -/
inductive AddRes where
  | ok (message : String) (id : Nat)
  | fail (error : String)
deriving DecidableEq

/-- A row as returned by the SELECT of list_expenses (updated_at is not
selected). -/
structure ExpenseOut where
  id : Nat
  date : String
  amount : ℚ
  currency : String
  category : String
  subcategory : Option String
  payment_method : Option String
  merchant : Option String
  notes : Option String
  created_at : Nat
deriving DecidableEq

/-- Projection of a stored row to the columns selected by list_expenses. -/
def Expense.toOut (r : Expense) : ExpenseOut :=
  { id := r.id, date := r.date, amount := r.amount, currency := r.currency,
    category := r.category, subcategory := r.subcategory,
    payment_method := r.payment_method, merchant := r.merchant,
    notes := r.notes, created_at := r.created_at }

/-- Result dictionary of list_expenses. -/
inductive ListRes where
  | ok (count : Nat) (expenses : List ExpenseOut)
  | fail (error : String)
deriving DecidableEq

/-- Result dictionary of update_expense. -/
inductive UpdRes where
  | ok (updated_id : Nat)
  | noFields
  | notFound
  | fail (error : String)
deriving DecidableEq

/-- Result dictionary of delete_expense. -/
inductive DelRes where
  | ok (deleted_id : Nat)
  | notFound
  | fail (error : String)
deriving DecidableEq

/-- One row of the GROUP BY query of get_expense_summary, before the Python
layer postprocesses it. -/
structure CatRow where
  category : String
  subcategory : Option String
  total : ℚ
deriving DecidableEq

/-- One entry of the by_category list in the summary dictionary. -/
structure CatOut where
  category : String
  subcategory : Option String
  total : ℚ
deriving DecidableEq

/-- Result dictionary of get_expense_summary. -/
inductive SumRes where
  | ok (total : ℚ) (by_category : List CatOut)
  | fail (error : String)
deriving DecidableEq

/-! Date validation: datetime.strptime(date, percent-Y-m-d). -/

/-- Leap year rule used by the Gregorian calendar. -/
def isLeapYear (y : Nat) : Bool :=
  (y % 4 == 0 && y % 100 != 0) || y % 400 == 0

/-- Number of days of month m in year y. -/
def daysInMonth (y m : Nat) : Nat :=
  if m = 2 then (if isLeapYear y then 29 else 28)
  else if m = 4 ∨ m = 6 ∨ m = 9 ∨ m = 11 then 30
  else 31

/-- Splitting of a character list at hyphens, accumulator style. -/
def splitDashAux : List Char → List Char → List (List Char)
  | [], acc => [acc.reverse]
  | c :: cs, acc =>
    if c = '-' then acc.reverse :: splitDashAux cs []
    else splitDashAux cs (c :: acc)

/-- Splitting of a string at hyphens. -/
def splitDash (s : String) : List (List Char) := splitDashAux s.data []

/-- Numeric value of a digit string. -/
def digitsToNat (cs : List Char) : Nat :=
  cs.foldl (fun n c => n * 10 + (c.toNat - 48)) 0

/-- Model of datetime.strptime(s, percent-Y-m-d) succeeding: a four digit
year, a one or two digit month, a one or two digit day, separated by
hyphens, consuming the whole string, denoting a real calendar date with
year at least 1. -/
def validDate (s : String) : Bool :=
  match splitDash s with
  | [ys, ms, ds] =>
    (ys.length == 4) && ys.all Char.isDigit &&
    decide (1 ≤ ms.length) && decide (ms.length ≤ 2) && ms.all Char.isDigit &&
    decide (1 ≤ ds.length) && decide (ds.length ≤ 2) && ds.all Char.isDigit &&
    (let y := digitsToNat ys
     let m := digitsToNat ms
     let d := digitsToNat ds
     decide (1 ≤ y) && decide (1 ≤ m) && decide (m ≤ 12) &&
       decide (1 ≤ d) && decide (d ≤ daysInMonth y m))
  | _ => false

/-! Rounding: the Python builtin round uses round-half-to-even. -/

/-- Round a rational to the nearest integer, ties going to the even
integer (the rule of the Python builtin round). -/
def roundHalfEven (q : ℚ) : ℤ :=
  if q - ⌊q⌋ < 1/2 then ⌊q⌋
  else if (1 : ℚ)/2 < q - ⌊q⌋ then ⌊q⌋ + 1
  else if ⌊q⌋ % 2 = 0 then ⌊q⌋ else ⌊q⌋ + 1

/-- Model of round(x, 2): round to two decimal places. -/
def round2 (q : ℚ) : ℚ := (roundHalfEven (q * 100) : ℚ) / 100

/-! Error message constants. -/

def msgLastrowid : String := "Connection object has no attribute lastrowid"
def msgBadDate : String := "time data does not match format Y-m-d"
def msgNegAmount : String := "Amount cannot be negative"
def msgBadCurrency : String := "Currency must be 3-letter code"
def msgDbFault : String := "unable to open database file"
def msgCheckFailed : String := "CHECK constraint failed: expenses"

/-! add_expense (src/main.py lines 54-93). -/

/-- Body of add_expense as run inside its try block, paired with the
database state at the moment the body finishes or raises: validation
raises ValueError before storage is touched; a fault on connect raises an
operational error; otherwise the INSERT is executed and committed, after
which the read of db.lastrowid raises AttributeError, because the
aiosqlite connection object has no lastrowid attribute (only cursors do),
so the success return of the source is dead code and the committed row
survives the exception. -/
def add_expense_body (date : String) (amount : ℚ) (category : String)
    (subcategory payment_method merchant notes : Option String) (currency : String)
    (fault : Bool) (now : Nat) (db : DB) : Except PyExc Nat × DB :=
  if !validDate date then (.error (.valueError msgBadDate), db)
  else if amount < 0 then (.error (.valueError msgNegAmount), db)
  else if currency.length ≠ 3 then (.error (.valueError msgBadCurrency), db)
  else if fault then (.error (.operationalError msgDbFault), db)
  else
    let row : Expense :=
      { id := db.next_id, date := date, created_at := now, updated_at := now,
        amount := amount, currency := currency, category := category,
        subcategory := subcategory, payment_method := payment_method,
        merchant := merchant, notes := notes }
    (.error (.attributeError msgLastrowid),
      { rows := db.rows ++ [row], next_id := db.next_id + 1 })

/-- Tool add_expense: runs the body, catches ValueError as a failure
dictionary with the plain message, and any other exception as a failure
dictionary prefixed with Database error (the two except clauses of the
source).  Returns the dictionary together with the database state left
behind by the body, committed rows included. -/
def add_expense (date : String) (amount : ℚ) (category : String)
    (subcategory payment_method merchant notes : Option String) (currency : String)
    (fault : Bool) (now : Nat) (db : DB) : Outcome AddRes × DB :=
  match add_expense_body date amount category subcategory payment_method merchant
      notes currency fault now db with
  | (.ok i, db2) => (.returned (.ok ("Expense added successfully") i), db2)
  | (.error (.valueError m), db2) => (.returned (.fail m), db2)
  | (.error (.operationalError m), db2) =>
      (.returned (.fail (("Database error: ") ++ m)), db2)
  | (.error (.attributeError m), db2) =>
      (.returned (.fail (("Database error: ") ++ m)), db2)

/-! list_expenses (src/main.py lines 96-135). -/

/-- Python truthiness of an optional string: present and non-empty. -/
def truthyS (o : Option String) : Bool := decide (o.getD ("") ≠ "")

/-- Row filter built from the optional date bounds (the WHERE clause;
bounds are only added when truthy, matching the if start_date tests). -/
def matchesRange (start_date end_date : Option String) (r : Expense) : Bool :=
  (if truthyS start_date then decide (start_date.getD ("") ≤ r.date) else true) &&
  (if truthyS end_date then decide (r.date ≤ end_date.getD ("")) else true)

/-- ORDER BY date DESC, id DESC as a boolean comparison. -/
def listLe (a b : Expense) : Bool :=
  decide (b.date < a.date) || (a.date == b.date && decide (b.id ≤ a.id))

/-- Effective LIMIT value: min(limit, 500), the safety limit of the code. -/
def effectiveLimit (limit : Int) : Int := min limit 500

/-- SQLite LIMIT semantics: a negative limit means no bound, a
nonnegative limit keeps that many rows. -/
def applyLimit (n : Int) (xs : List Expense) : List Expense :=
  if n < 0 then xs else xs.take n.toNat

/-- Rows produced by the SELECT of list_expenses: filter, sort, limit. -/
def selectedRows (start_date end_date : Option String) (limit : Int) (db : DB) :
    List Expense :=
  applyLimit (effectiveLimit limit)
    (List.mergeSort (db.rows.filter (matchesRange start_date end_date)) listLe)

/-- Body of list_expenses inside its try block. -/
def list_expenses_body (start_date end_date : Option String) (limit : Int)
    (fault : Bool) (db : DB) : Except PyExc (List ExpenseOut) :=
  if fault then .error (.operationalError msgDbFault)
  else .ok ((selectedRows start_date end_date limit db).map Expense.toOut)

/-- Tool list_expenses: count is the length of the returned row list;
the single except clause catches every exception. -/
def list_expenses (start_date end_date : Option String) (limit : Int)
    (fault : Bool) (db : DB) : Outcome ListRes :=
  match list_expenses_body start_date end_date limit fault db with
  | .ok es => .returned (.ok es.length es)
  | .error e => .returned (.fail e.msg)

/-! update_expense (src/main.py lines 138-194). -/

/-- The presence guard of update_expense: Python truthiness for the string
fields, an explicit is-not-None test for amount. -/
def anyFieldTruthy (date : Option String) (amount : Option ℚ)
    (category subcategory payment_method merchant notes currency : Option String) :
    Bool :=
  truthyS date || amount.isSome || truthyS category || truthyS subcategory ||
    truthyS payment_method || truthyS merchant || truthyS notes || truthyS currency

/-- Field-by-field SET clause assembly: each field is written exactly when
its argument is not None; updated_at is always refreshed. -/
def applyFieldUpdates (date : Option String) (amount : Option ℚ)
    (category subcategory payment_method merchant notes currency : Option String)
    (now : Nat) (r : Expense) : Expense :=
  { r with
    date := date.getD r.date,
    amount := amount.getD r.amount,
    category := category.getD r.category,
    subcategory := if subcategory.isSome then subcategory else r.subcategory,
    payment_method := if payment_method.isSome then payment_method else r.payment_method,
    merchant := if merchant.isSome then merchant else r.merchant,
    notes := if notes.isSome then notes else r.notes,
    currency := currency.getD r.currency,
    updated_at := now }

/-- The CHECK constraints of the schema, evaluated on a written row. -/
def rowCheckOK (r : Expense) : Bool :=
  decide (0 ≤ r.amount) && decide (r.currency.length = 3)

/-- Body of update_expense inside its try block: the UPDATE statement
touches the rows whose id matches; a CHECK violation on any written row
aborts the statement, leaving the table unchanged, and raises; a zero
rowcount is reported as none. -/
def update_expense_body (id : Nat) (date : Option String) (amount : Option ℚ)
    (category subcategory payment_method merchant notes currency : Option String)
    (fault : Bool) (now : Nat) (db : DB) : Except PyExc (Option Nat × DB) :=
  if fault then .error (.operationalError msgDbFault)
  else
    let upd := applyFieldUpdates date amount category subcategory payment_method
      merchant notes currency now
    let matched := db.rows.filter (fun r => r.id == id)
    if matched.length = 0 then .ok (none, db)
    else if matched.all (fun r => rowCheckOK (upd r)) then
      .ok (some id,
        { db with rows := db.rows.map (fun r => if r.id == id then upd r else r) })
    else .error (.operationalError msgCheckFailed)

/-- Tool update_expense: the presence guard runs before the try block; the
single except clause catches every exception as a failure dictionary. -/
def update_expense (id : Nat) (date : Option String) (amount : Option ℚ)
    (category subcategory payment_method merchant notes currency : Option String)
    (fault : Bool) (now : Nat) (db : DB) : Outcome UpdRes × DB :=
  if !anyFieldTruthy date amount category subcategory payment_method merchant
      notes currency then
    (.returned .noFields, db)
  else
    match update_expense_body id date amount category subcategory payment_method
        merchant notes currency fault now db with
    | .ok (some i, db2) => (.returned (.ok i), db2)
    | .ok (none, db2) => (.returned .notFound, db2)
    | .error e => (.returned (.fail e.msg), db)

/-! delete_expense (src/main.py lines 197-208). -/

/-- Body of delete_expense inside its try block. -/
def delete_expense_body (id : Nat) (fault : Bool) (db : DB) :
    Except PyExc (Option Nat × DB) :=
  if fault then .error (.operationalError msgDbFault)
  else if (db.rows.filter (fun r => r.id == id)).length = 0 then .ok (none, db)
  else .ok (some id, { db with rows := db.rows.filter (fun r => !(r.id == id)) })

/-- Tool delete_expense. -/
def delete_expense (id : Nat) (fault : Bool) (db : DB) : Outcome DelRes × DB :=
  match delete_expense_body id fault db with
  | .ok (some i, db2) => (.returned (.ok i), db2)
  | .ok (none, db2) => (.returned .notFound, db2)
  | .error e => (.returned (.fail e.msg), db)

/-! get_expense_summary (src/main.py lines 211-244). -/

/-- Grouping key of the GROUP BY category, subcategory clause. -/
def expenseKey (r : Expense) : String × Option String := (r.category, r.subcategory)

/-- The distinct grouping keys present among the rows. -/
def groupKeys (rows : List Expense) : List (String × Option String) :=
  (rows.map expenseKey).dedup

/-- SUM(amount) over one group. -/
def groupTotal (rows : List Expense) (k : String × Option String) : ℚ :=
  ((rows.filter (fun r => expenseKey r == k)).map Expense.amount).sum

/-- Rows of the GROUP BY query, ordered by total descending (the ORDER BY
of the source query sorts on the exact SQL sums). -/
def byCategoryRows (rows : List Expense) : List CatRow :=
  List.mergeSort
    ((groupKeys rows).map
      (fun k => { category := k.1, subcategory := k.2, total := groupTotal rows k }))
    (fun a b => decide (b.total ≤ a.total))

/-- Python postprocessing of one group row: subcategory falls back to None
when falsy, the total is rounded to 2 decimal places. -/
def CatRow.toOut (c : CatRow) : CatOut :=
  { category := c.category,
    subcategory := if c.subcategory.getD ("") = "" then none else c.subcategory,
    total := round2 c.total }

/-- SUM(amount) over the whole table; the or-0.0 of the source turns the
NULL sum of an empty table into 0, which the empty list sum already is. -/
def grandTotal (rows : List Expense) : ℚ := (rows.map Expense.amount).sum

/-- Body of get_expense_summary inside its try block. -/
def get_expense_summary_body (fault : Bool) (db : DB) :
    Except PyExc (ℚ × List CatOut) :=
  if fault then .error (.operationalError msgDbFault)
  else .ok (round2 (grandTotal db.rows), (byCategoryRows db.rows).map CatRow.toOut)

/-- Tool get_expense_summary. -/
def get_expense_summary (fault : Bool) (db : DB) : Outcome SumRes :=
  match get_expense_summary_body fault db with
  | .ok (t, bc) => .returned (.ok t bc)
  | .error e => .returned (.fail e.msg)

/-! Accessors used to state the claims. -/

/-- Did the call return a dictionary (as opposed to raising)? -/
def isReturned {ρ : Type} : Outcome ρ → Bool
  | .returned _ => true
  | .raised _ => false

/-- Count field of a list_expenses result (0 on failure). -/
def listCount : Outcome ListRes → Nat
  | .returned (.ok n _) => n
  | _ => 0

/-- Expense list of a list_expenses result (empty on failure). -/
def listRows : Outcome ListRes → List ExpenseOut
  | .returned (.ok _ es) => es
  | _ => []

/-- By-category breakdown of a summary result (empty on failure). -/
def sumByCat : Outcome SumRes → List CatOut
  | .returned (.ok _ bc) => bc
  | _ => []

/-- Is an add_expense result a failure produced by the validation block
(one of the three ValueError messages)? -/
def isValidationFail : Outcome AddRes → Bool
  | .returned (.fail m) =>
      m == msgBadDate || m == msgNegAmount || m == msgBadCurrency
  | _ => false

/-! Concrete databases used in counterexamples and witnesses. -/

/-- The empty table with the id counter at 1. -/
def emptyDB : DB := { rows := [], next_id := 1 }

/-- A generic row used to populate test tables. -/
def mkRow (i : Nat) : Expense :=
  { id := i, date := "2024-01-01", created_at := 0, updated_at := 0, amount := 1,
    currency := "USD", category := "Food", subcategory := none,
    payment_method := none, merchant := none, notes := none }

/-- n generic rows with ids 0 to n-1. -/
def mkRows (n : Nat) : List Expense := (List.range n).map mkRow

/-- A table with 1001 rows. -/
def db1001 : DB := { rows := mkRows 1001, next_id := 1001 }

/-- Modelled from the spec: the uppercase form of a currency string, the
normalization the specification says is applied to stored currencies
(currency normalized to uppercase).  The code under test never calls it. -/
def upperStr (s : String) : String := String.mk (s.data.map Char.toUpper)

/-- The row of the update scenario of the spec: id 1, amount 12.50. -/
def row_c3 : Expense :=
  { id := 1, date := "2024-01-05", created_at := 0, updated_at := 0,
    amount := mkRat 25 2, currency := "USD", category := "Food",
    subcategory := none, payment_method := none, merchant := none, notes := none }

/-- A table holding only the spec scenario row. -/
def db_c3 : DB := { rows := [row_c3], next_id := 2 }

/-- A row with amount 0 (allowed by the schema, amount must only be
nonnegative). -/
def row_c4 : Expense :=
  { id := 1, date := "2024-01-05", created_at := 0, updated_at := 0,
    amount := 0, currency := "USD", category := "Food",
    subcategory := none, payment_method := none, merchant := none, notes := none }

/-- A table whose single group has subtotal 0. -/
def db_c4 : DB := { rows := [row_c4], next_id := 2 }

/-- A small well-formed table used by witnesses. -/
def dbW : DB := { rows := [mkRow 1], next_id := 2 }

/-- A two-row table used by the negative-limit witness. -/
def db_c9 : DB := { rows := mkRows 2, next_id := 2 }

/-! Helper lemmas. -/

theorem mkRows_length (n : Nat) : (mkRows n).length = n := by
  simp [mkRows]

theorem matchesRange_none_none (r : Expense) : matchesRange none none r = true := rfl

theorem applyFieldUpdates_id (d : Option String) (a : Option ℚ)
    (c s p m n cur : Option String) (now : Nat) (r : Expense) :
    (applyFieldUpdates d a c s p m n cur now r).id = r.id := rfl

theorem filter_map_ite (p : Expense → Bool) (rows : List Expense) (upd : Expense → Expense)
    (hp : ∀ r, p (upd r) = p r) :
    (rows.map (fun r => if p r then upd r else r)).filter p
      = (rows.filter p).map upd := by
  induction rows with
  | nil => rfl
  | cons a l ih =>
    simp only [List.map_cons, List.filter_cons]
    cases h : p a with
    | true =>
      have h2 : p (upd a) = true := by rw [hp, h]
      simp [h, h2, ih]
    | false =>
      simp [h, ih]

theorem listCount_of_neg (s e : Option String) (limit : Int) (db : DB)
    (h : effectiveLimit limit < 0) :
    listCount (list_expenses s e limit false db)
      = (db.rows.filter (matchesRange s e)).length := by
  simp [list_expenses, list_expenses_body, listCount, selectedRows, applyLimit, h]

theorem update_expense_eq_ok (i : Nat) (d : Option String) (a : Option ℚ)
    (c s p m n cur : Option String) (now : Nat) (db : DB)
    (hg : anyFieldTruthy d a c s p m n cur = true)
    (hm : ¬ (db.rows.filter (fun r => r.id == i)).length = 0)
    (hall : (db.rows.filter (fun r => r.id == i)).all
      (fun r => rowCheckOK (applyFieldUpdates d a c s p m n cur now r)) = true) :
    update_expense i d a c s p m n cur false now db
      = (Outcome.returned (UpdRes.ok i),
          { db with rows := db.rows.map (fun r =>
              if r.id == i then applyFieldUpdates d a c s p m n cur now r else r) }) := by
  simp [update_expense, hg, update_expense_body, hm, hall]

theorem update_expense_rows_of_check (i : Nat) (d : Option String) (a : Option ℚ)
    (c s p m n cur : Option String) (now : Nat) (db : DB)
    (hg : anyFieldTruthy d a c s p m n cur = true)
    (hck : ∀ r ∈ db.rows, r.id = i →
      rowCheckOK (applyFieldUpdates d a c s p m n cur now r) = true) :
    (update_expense i d a c s p m n cur false now db).2.rows.filter
        (fun r => r.id == i)
      = (db.rows.filter (fun r => r.id == i)).map
          (applyFieldUpdates d a c s p m n cur now) := by
  by_cases hm : (db.rows.filter (fun r => r.id == i)).length = 0
  · have hne : db.rows.filter (fun r => r.id == i) = [] := List.length_eq_zero.mp hm
    simp [update_expense, hg, update_expense_body, hne]
  · have hall : (db.rows.filter (fun r => r.id == i)).all
        (fun r => rowCheckOK (applyFieldUpdates d a c s p m n cur now r)) = true := by
      apply List.all_eq_true.mpr
      intro r hr
      exact hck r (List.mem_of_mem_filter hr) (by simpa using List.of_mem_filter hr)
    rw [update_expense_eq_ok i d a c s p m n cur now db hg hm hall]
    exact filter_map_ite (fun r => r.id == i) db.rows _ fun r => rfl

/-! Claim theorems. -/

/-- Claim C1, counterexample: add_expense stores the supplied currency
verbatim, not its uppercase form; with supplied currency usd the stored
value is usd while its uppercase form is USD. -/
theorem C1_counterexample :
    (add_expense ("2024-01-05") (mkRat 25 2) ("Food") none none none none ("usd")
        false 0 emptyDB).2.rows.map Expense.currency = [("usd")] ∧
    upperStr ("usd") = ("USD") ∧ ("usd" : String) ≠ ("USD") :=
  ⟨by decide, by decide, by decide⟩

/-- Claim C7 (confirmed): update_expense with no mutable field supplied
besides id returns the no-fields result and leaves the database, including
every updated_at timestamp, unchanged, for every table state, clock value
and fault flag (the guard runs before storage is touched). -/
theorem C7_no_fields (i : Nat) (fault : Bool) (now : Nat) (db : DB) :
    update_expense i none none none none none none none none fault now db
      = (Outcome.returned UpdRes.noFields, db) := rfl

/-- Claim C3 (code bug): update_expense(id 1, amount -5) on the spec
scenario table is not rejected by validation before the write; the UPDATE
reaches storage, the CHECK constraint rejects it there, and the call
returns a database-error-shaped failure; the stored amount stays 12.50. -/
theorem C3_code_behavior :
    (update_expense 1 none (some (-5)) none none none none none none false 9 db_c3).1
        = Outcome.returned (UpdRes.fail msgCheckFailed) ∧
    (update_expense 1 none (some (-5)) none none none none none none false 9
        db_c3).2.rows.map Expense.amount = [mkRat 25 2] :=
  ⟨by decide, by decide⟩

set_option maxRecDepth 100000 in
/-- Claim C2, counterexample: the cap of list_expenses is not 1000; with a
negative requested limit the code passes min(limit, 500) = limit to the
LIMIT clause, SQLite drops the bound, and a 1001-row table yields 1001
records, more than 1000. -/
theorem C2_counterexample :
    listCount (list_expenses none none (-1) false db1001) = 1001 ∧ 1000 < 1001 := by
  refine ⟨?_, by norm_num⟩
  rw [listCount_of_neg none none (-1) db1001 (by norm_num [effectiveLimit]),
    List.filter_eq_self.mpr fun a _ => matchesRange_none_none a]
  exact mkRows_length 1001

/-- Claim C2 (amended): the hard ceiling is 500, not 1000: for every
nonnegative requested limit the count of records returned is at most 500,
whatever the table state and fault flag. -/
theorem C2_amended (s e : Option String) (limit : Int) (fault : Bool) (db : DB)
    (h : 0 ≤ limit) : listCount (list_expenses s e limit fault db) ≤ 500 := by
  cases fault with
  | true => simp [list_expenses, list_expenses_body, listCount]
  | false =>
    have h2 : ¬ effectiveLimit limit < 0 := by
      simp only [effectiveLimit]
      omega
    have h3 : (effectiveLimit limit).toNat ≤ 500 := by
      simp only [effectiveLimit]
      omega
    simp only [list_expenses, list_expenses_body, if_neg (by simp : ¬ False),
      listCount, selectedRows, applyLimit, if_neg h2]
    calc (List.map Expense.toOut
            ((List.mergeSort (db.rows.filter (matchesRange s e)) listLe).take
              (effectiveLimit limit).toNat)).length
        ≤ (effectiveLimit limit).toNat := by
          simp [List.length_take]
      _ ≤ 500 := h3

/-- Witness for C2 (amended) at a concrete call. -/
theorem C2_amended_witness :
    (0 : Int) ≤ 100 ∧ listCount (list_expenses none none 100 false emptyDB) ≤ 500 :=
  ⟨by norm_num, C2_amended none none 100 false emptyDB (by norm_num)⟩

/-- Claim C9 (confirmed): with a negative requested limit the value passed
to the LIMIT clause, min(limit, 500), is negative, the storage engine
drops the bound, and the result holds every row matching the date filter. -/
theorem C9_negative_limit (s e : Option String) (limit : Int) (db : DB)
    (h : limit < 0) :
    effectiveLimit limit < 0 ∧
    listCount (list_expenses s e limit false db)
      = (db.rows.filter (matchesRange s e)).length := by
  have hneg : effectiveLimit limit < 0 := by
    simp only [effectiveLimit]
    omega
  exact ⟨hneg, listCount_of_neg s e limit db hneg⟩

/-- Witness for C9 at a concrete call on a two-row table. -/
theorem C9_witness :
    ((-1 : Int) < 0) ∧ (effectiveLimit (-1) < 0 ∧
      listCount (list_expenses none none (-1) false db_c9)
        = (db_c9.rows.filter (matchesRange none none)).length) :=
  ⟨by norm_num, C9_negative_limit none none (-1) db_c9 (by norm_num)⟩

/-- Claim C6 (confirmed): whenever the date does not parse, or the amount
is negative, or the currency is not exactly 3 characters, add_expense
returns a validation-shaped failure dictionary (one of the three
ValueError messages) and writes nothing to storage, for every fault flag. -/
theorem C6_add_validation (date : String) (amount : ℚ) (category : String)
    (sub pay mer nts : Option String) (currency : String) (fault : Bool)
    (now : Nat) (db : DB)
    (h : validDate date = false ∨ amount < 0 ∨ currency.length ≠ 3) :
    isValidationFail (add_expense date amount category sub pay mer nts currency
        fault now db).1 = true ∧
    (add_expense date amount category sub pay mer nts currency fault now db).2 = db := by
  cases hdate : validDate date with
  | false =>
    constructor <;>
      simp [add_expense, add_expense_body, isValidationFail, hdate]
  | true =>
    by_cases ha : amount < 0
    · constructor <;>
        simp [add_expense, add_expense_body, isValidationFail, hdate, ha, msgNegAmount,
          msgBadDate, msgBadCurrency]
    · have hc : currency.length ≠ 3 := by
        rcases h with h | h | h
        · rw [hdate] at h
          exact absurd h (by simp)
        · exact absurd h ha
        · exact h
      constructor <;>
        simp [add_expense, add_expense_body, isValidationFail, hdate, ha, hc,
          msgNegAmount, msgBadDate, msgBadCurrency]

/-- Witness for C6 at a concrete call with an invalid month. -/
theorem C6_witness :
    (validDate ("2024-13-01") = false ∨ (1 : ℚ) < 0 ∨ ("USD" : String).length ≠ 3) ∧
    (isValidationFail (add_expense ("2024-13-01") 1 ("Food") none none none none
        ("USD") false 0 emptyDB).1 = true ∧
      (add_expense ("2024-13-01") 1 ("Food") none none none none ("USD") false 0
        emptyDB).2 = emptyDB) :=
  ⟨Or.inl (by decide),
    C6_add_validation ("2024-13-01") 1 ("Food") none none none none ("USD") false 0
      emptyDB (Or.inl (by decide))⟩

/-- Claim C5 (confirmed): whatever the arguments, table state and storage
outcome (fault or not), each of the five operations returns a structured
result dictionary and never lets an exception escape to the dispatcher:
the outcome is always a returned value, never a raised exception, because
every body runs under a catch-all except clause. -/
theorem C5_structured_results :
    (∀ (date : String) (amount : ℚ) (category : String)
        (sub pay mer nts : Option String) (currency : String) (fault : Bool)
        (now : Nat) (db : DB),
      isReturned (add_expense date amount category sub pay mer nts currency
        fault now db).1 = true) ∧
    (∀ (s e : Option String) (limit : Int) (fault : Bool) (db : DB),
      isReturned (list_expenses s e limit fault db) = true) ∧
    (∀ (i : Nat) (d : Option String) (a : Option ℚ)
        (c s2 p m n cur : Option String) (fault : Bool) (now : Nat) (db : DB),
      isReturned (update_expense i d a c s2 p m n cur fault now db).1 = true) ∧
    (∀ (i : Nat) (fault : Bool) (db : DB),
      isReturned (delete_expense i fault db).1 = true) ∧
    (∀ (fault : Bool) (db : DB),
      isReturned (get_expense_summary fault db) = true) := by
  refine ⟨?_, ?_, ?_, ?_, ?_⟩
  · intro date amount category sub pay mer nts currency fault now db
    cases hb : add_expense_body date amount category sub pay mer nts currency
        fault now db with
    | mk r0 db2 =>
      cases r0 with
      | ok i => simp [add_expense, hb, isReturned]
      | error e => cases e <;> simp [add_expense, hb, isReturned]
  · intro s e limit fault db
    cases hb : list_expenses_body s e limit fault db with
    | error ex => simp [list_expenses, hb, isReturned]
    | ok es => simp [list_expenses, hb, isReturned]
  · intro i d a c s2 p m n cur fault now db
    cases hg : anyFieldTruthy d a c s2 p m n cur with
    | false => simp [update_expense, hg, isReturned]
    | true =>
      cases hb : update_expense_body i d a c s2 p m n cur fault now db with
      | error ex => simp [update_expense, hg, hb, isReturned]
      | ok q =>
        obtain ⟨oi, db2⟩ := q
        cases oi <;> simp [update_expense, hg, hb, isReturned]
  · intro i fault db
    cases hb : delete_expense_body i fault db with
    | error ex => simp [delete_expense, hb, isReturned]
    | ok q =>
      obtain ⟨oi, db2⟩ := q
      cases oi <;> simp [delete_expense, hb, isReturned]
  · intro fault db
    cases hb : get_expense_summary_body fault db with
    | error ex => simp [get_expense_summary, hb, isReturned]
    | ok q =>
      obtain ⟨t, bc⟩ := q
      simp [get_expense_summary, hb, isReturned]

/-- Claim C8 (confirmed): when no row carries the targeted id, both
delete_expense and update_expense (called with at least one field so the
presence guard passes) return the not-found result with zero rows
affected and leave the table exactly as it was. -/
theorem C8_not_found (i : Nat) (d : Option String) (a : Option ℚ)
    (c s p m n cur : Option String) (now : Nat) (db : DB)
    (hno : ∀ r ∈ db.rows, r.id ≠ i)
    (hg : anyFieldTruthy d a c s p m n cur = true) :
    delete_expense i false db = (Outcome.returned DelRes.notFound, db) ∧
    update_expense i d a c s p m n cur false now db
      = (Outcome.returned UpdRes.notFound, db) := by
  have hfil : db.rows.filter (fun r => r.id == i) = [] :=
    List.filter_eq_nil_iff.mpr fun r hr => by simp [hno r hr]
  constructor
  · simp [delete_expense, delete_expense_body, hfil]
  · simp [update_expense, hg, update_expense_body, hfil]

/-- Witness for C8: deleting and updating id 999 on the empty table. -/
theorem C8_witness :
    (∀ r ∈ emptyDB.rows, r.id ≠ 999) ∧
    (delete_expense 999 false emptyDB = (Outcome.returned DelRes.notFound, emptyDB) ∧
      update_expense 999 none (some 1) none none none none none none false 0 emptyDB
        = (Outcome.returned UpdRes.notFound, emptyDB)) :=
  ⟨by decide,
    C8_not_found 999 none (some 1) none none none none none none 0 emptyDB
      (by decide) (by decide)⟩

/-- Claim C1 (amended): no uppercasing is applied to currencies.  An
add_expense call that passes validation commits a row whose currency is
exactly the supplied string — while the call itself reports a Database
error dictionary, because after the commit the read of lastrowid on the
connection raises, so no add_expense call ever reports success — and an
update_expense call that supplies a currency, whatever other fields it
also supplies, stores that exact string in every matched row. -/
theorem C1_amended :
    (∀ (date : String) (amount : ℚ) (category : String)
        (sub pay mer nts : Option String) (currency : String) (now : Nat) (db : DB),
      validDate date = true → 0 ≤ amount → currency.length = 3 →
      (add_expense date amount category sub pay mer nts currency false now db).1
          = Outcome.returned (AddRes.fail (("Database error: ") ++ msgLastrowid)) ∧
      (add_expense date amount category sub pay mer nts currency false now
          db).2.rows.map Expense.currency
        = db.rows.map Expense.currency ++ [currency]) ∧
    (∀ (i now : Nat) (d : Option String) (a : Option ℚ)
        (cat sub pay mer nts : Option String) (c : String) (db : DB),
      c.length = 3 →
      (∀ q, a = some q → 0 ≤ q) →
      (∀ r ∈ db.rows, 0 ≤ r.amount) →
      ((update_expense i d a cat sub pay mer nts (some c) false now
          db).2.rows.filter (fun r => r.id == i)).all
        (fun r => r.currency == c) = true) := by
  constructor
  · intro date amount category sub pay mer nts currency now db hd ha hc
    have ha2 : ¬ amount < 0 := not_lt.mpr ha
    constructor <;> simp [add_expense, add_expense_body, hd, ha2, hc]
  · intro i now d a cat sub pay mer nts c db hc ha hwf
    have hne : c ≠ "" := fun h => by simp [h] at hc
    have hg : anyFieldTruthy d a cat sub pay mer nts (some c) = true := by
      simp [anyFieldTruthy, truthyS, hne]
    have hck : ∀ r ∈ db.rows, r.id = i →
        rowCheckOK (applyFieldUpdates d a cat sub pay mer nts (some c)
          now r) = true := by
      intro r hr _
      have hamt : 0 ≤ a.getD r.amount := by
        cases a with
        | none => exact hwf r hr
        | some q => exact ha q rfl
      simp [rowCheckOK, applyFieldUpdates, hamt, hc]
    rw [update_expense_rows_of_check i d a cat sub pay mer nts (some c)
      now db hg hck]
    apply List.all_eq_true.mpr
    intro x hx
    obtain ⟨r, hr, rfl⟩ := List.mem_map.mp hx
    simp [applyFieldUpdates]

/-- Witness for C1 (amended) at concrete calls: the add commits a
verbatim eur row while reporting the lastrowid database error; the update
supplies an amount and a category alongside the currency. -/
theorem C1_amended_witness :
    (validDate ("2024-01-05") = true ∧ (0 : ℚ) ≤ mkRat 25 2 ∧
      ("eur" : String).length = 3 ∧
      ((add_expense ("2024-01-05") (mkRat 25 2) ("Food") none none none none ("eur")
          false 3 emptyDB).1
          = Outcome.returned (AddRes.fail (("Database error: ") ++ msgLastrowid)) ∧
        (add_expense ("2024-01-05") (mkRat 25 2) ("Food") none none none none ("eur")
          false 3 emptyDB).2.rows.map Expense.currency
        = emptyDB.rows.map Expense.currency ++ [("eur")])) ∧
    (("GBP" : String).length = 3 ∧
      ((update_expense 1 none (some 2) (some ("Transport")) none none none none
          (some ("GBP")) false 5 dbW).2.rows.filter (fun r => r.id == 1)).all
        (fun r => r.currency == ("GBP")) = true) :=
  ⟨⟨by decide, by decide, by decide,
      C1_amended.1 ("2024-01-05") (mkRat 25 2) ("Food") none none none none ("eur")
        3 emptyDB (by decide) (by decide) (by decide)⟩,
    ⟨by decide,
      C1_amended.2 1 5 none (some 2) (some ("Transport")) none none none none
        ("GBP") dbW (by decide)
        (by intro q hq; injection hq with h; rw [← h]; norm_num)
        (by decide)⟩⟩

/-- Claim C10 (confirmed): when amount is None and every supplied string
field is the empty string, the truthiness guard sees no field and
update_expense returns the no-fields result leaving the table untouched;
yet the very same empty-string field is written to the matched rows when
one further truthy field accompanies it, because field assembly tests
is-not-None (shown for notes written as the empty string alongside a
non-empty category). -/
theorem C10_empty_string_fields :
    (∀ (d c s p m n cur : Option String) (i now : Nat) (fault : Bool) (db : DB),
      d.getD ("") = "" → c.getD ("") = "" → s.getD ("") = "" → p.getD ("") = "" →
      m.getD ("") = "" → n.getD ("") = "" → cur.getD ("") = "" →
      update_expense i d none c s p m n cur fault now db
        = (Outcome.returned UpdRes.noFields, db)) ∧
    (∀ (i now : Nat) (cat : String) (db : DB),
      cat ≠ "" → (∀ r ∈ db.rows, 0 ≤ r.amount ∧ r.currency.length = 3) →
      ((update_expense i none none (some cat) none none none (some ("")) none false
          now db).2.rows.filter (fun r => r.id == i)).all
        (fun r => r.notes == some ("")) = true) := by
  constructor
  · intro d c s p m n cur i now fault db hd hc hs hp hm2 hn hcur
    have hg : anyFieldTruthy d none c s p m n cur = false := by
      simp [anyFieldTruthy, truthyS, hd, hc, hs, hp, hm2, hn, hcur]
    simp [update_expense, hg]
  · intro i now cat db hcat hwf
    have hg : anyFieldTruthy none none (some cat) none none none (some ("")) none
        = true := by
      simp [anyFieldTruthy, truthyS, hcat]
    have hck : ∀ r ∈ db.rows, r.id = i →
        rowCheckOK (applyFieldUpdates none none (some cat) none none none
          (some ("")) none now r) = true := by
      intro r hr _
      simp [rowCheckOK, applyFieldUpdates, (hwf r hr).1, (hwf r hr).2]
    rw [update_expense_rows_of_check i none none (some cat) none none none
      (some ("")) none now db hg hck]
    apply List.all_eq_true.mpr
    intro x hx
    obtain ⟨r, hr, rfl⟩ := List.mem_map.mp hx
    simp [applyFieldUpdates]

/-- Witness for C10 at concrete calls: all-empty-string fields give the
no-fields result on the empty table; notes is written as the empty string
when a non-empty category accompanies it. -/
theorem C10_witness :
    (update_expense 7 (some ("")) none (some ("")) none none none none none false 4
        emptyDB = (Outcome.returned UpdRes.noFields, emptyDB)) ∧
    ((update_expense 1 none none (some ("Food")) none none none (some ("")) none
        false 4 dbW).2.rows.filter (fun r => r.id == 1)).all
      (fun r => r.notes == some ("")) = true :=
  ⟨C10_empty_string_fields.1 (some ("")) (some ("")) none none none none none 7 4
      false emptyDB rfl rfl rfl rfl rfl rfl rfl,
    C10_empty_string_fields.2 1 4 ("Food") dbW (by decide) (by decide)⟩

theorem roundHalfEven_ge_floor (q : ℚ) : ⌊q⌋ ≤ roundHalfEven q := by
  unfold roundHalfEven
  split_ifs <;> omega

theorem roundHalfEven_le_floor_add_one (q : ℚ) : roundHalfEven q ≤ ⌊q⌋ + 1 := by
  unfold roundHalfEven
  split_ifs <;> omega

theorem roundHalfEven_mono {x y : ℚ} (h : x ≤ y) :
    roundHalfEven x ≤ roundHalfEven y := by
  rcases eq_or_lt_of_le (Int.floor_mono h) with hfe | hfl
  · have hfr : x - ((⌊y⌋ : ℤ) : ℚ) ≤ y - ((⌊y⌋ : ℤ) : ℚ) := sub_le_sub_right h _
    unfold roundHalfEven
    rw [hfe]
    split_ifs <;> first | omega | (exfalso; linarith)
  · have h1 := roundHalfEven_le_floor_add_one x
    have h2 := roundHalfEven_ge_floor y
    omega

theorem round2_mono {x y : ℚ} (h : x ≤ y) : round2 x ≤ round2 y := by
  have h1 : roundHalfEven (x * 100) ≤ roundHalfEven (y * 100) :=
    roundHalfEven_mono (by linarith)
  have h2 : ((roundHalfEven (x * 100) : ℤ) : ℚ)
      ≤ ((roundHalfEven (y * 100) : ℤ) : ℚ) := by
    exact_mod_cast h1
  unfold round2
  linarith

/-- Claim C4, counterexample: a (category, subcategory) pair whose subtotal
is zero is not excluded from the breakdown: on a table whose only row has
amount 0, the by_category list holds exactly one entry and its subtotal
is 0. -/
theorem C4_counterexample :
    (sumByCat (get_expense_summary false db_c4)).map CatOut.total = [(0 : ℚ)] := by
  have hkeys : groupKeys db_c4.rows = [(("Food" : String), (none : Option String))] := by
    show (db_c4.rows.map expenseKey).dedup = _
    rw [show db_c4.rows.map expenseKey
        = [(("Food" : String), (none : Option String))] from rfl]
    rw [List.dedup_cons_of_not_mem (by simp), List.dedup_nil]
  have htot : groupTotal db_c4.rows (("Food" : String), (none : Option String)) = 0 := by
    have hf : db_c4.rows.filter
        (fun r => expenseKey r == (("Food" : String), (none : Option String)))
          = [row_c4] := by decide
    show (List.map Expense.amount _).sum = 0
    rw [hf]
    simp [row_c4]
  have hby : byCategoryRows db_c4.rows
      = [{ category := ("Food" : String), subcategory := none, total := 0 }] := by
    simp [byCategoryRows, hkeys, htot, List.mergeSort]
  have hout : get_expense_summary false db_c4
      = Outcome.returned (SumRes.ok (round2 (grandTotal db_c4.rows))
          ([{ category := ("Food" : String), subcategory := none,
              total := 0 }].map CatRow.toOut)) := by
    simp [get_expense_summary, get_expense_summary_body, hby]
  rw [hout]
  show [(CatRow.toOut _).total] = _
  simp [CatRow.toOut, round2, roundHalfEven]

/-- Claim C4 (amended): the by_category breakdown contains one entry per
(category, subcategory) pair present in the table — pairs with a zero
subtotal included — ordered by subtotal descending, every reported
subtotal being the rounding to 2 decimal places of the exact group sum. -/
theorem C4_amended (db : DB) :
    List.Pairwise (fun a b : CatOut => b.total ≤ a.total)
        (sumByCat (get_expense_summary false db)) ∧
    (sumByCat (get_expense_summary false db)).length = (groupKeys db.rows).length ∧
    (sumByCat (get_expense_summary false db)).all
        (fun c => (groupKeys db.rows).any
          (fun k => c.category == k.1 && c.total == round2 (groupTotal db.rows k)))
      = true := by
  have hs : sumByCat (get_expense_summary false db)
      = (byCategoryRows db.rows).map CatRow.toOut := rfl
  refine ⟨?_, ?_, ?_⟩
  · rw [hs]
    have hs2 : (byCategoryRows db.rows).Pairwise
        (fun a b : CatRow => (decide (b.total ≤ a.total)) = true) := by
      unfold byCategoryRows
      exact List.sorted_mergeSort
        (fun a b c hab hbc => by
          simp only [decide_eq_true_eq] at hab hbc ⊢
          exact le_trans hbc hab)
        (fun a b => by
          rcases le_total b.total a.total with hle | hle <;> simp [hle])
        _
    have hsorted : (byCategoryRows db.rows).Pairwise
        (fun a b : CatRow => b.total ≤ a.total) :=
      hs2.imp fun hab => of_decide_eq_true hab
    exact List.Pairwise.map CatRow.toOut (fun a b hab => round2_mono hab) hsorted
  · rw [hs]
    simp [byCategoryRows]
  · rw [hs]
    apply List.all_eq_true.mpr
    intro x hx
    obtain ⟨cr, hcr, rfl⟩ := List.mem_map.mp hx
    have hcr2 : cr ∈ (groupKeys db.rows).map
        (fun k => ({ category := k.1, subcategory := k.2,
                     total := groupTotal db.rows k } : CatRow)) := by
      simpa [byCategoryRows] using hcr
    obtain ⟨k, hk, rfl⟩ := List.mem_map.mp hcr2
    apply List.any_eq_true.mpr
    exact ⟨k, hk, by simp [CatRow.toOut]⟩

end ExpenseTracker
